import Mathlib

/-!
# Verification of the water-rocket telemetry firmware

Shallow embedding of the core of the Projeto-Integrador-1 repository:
the command/checksum protocol (`ControlCommand`, `LaunchCommand`), the
flight-state machine of the flight unit (start/end of the SD logging
session driven by ESP-NOW commands), the ground unit's receive path,
and the flight unit's sampling/transmission rate discipline with the
complementary sensor-fusion filter.

Conventions of the embedding:
- machine integers are `Nat` with explicit reduction `% 2^w` where the
  C code relies on unsigned wraparound (`u32sub` mirrors `unsigned long`
  subtraction of millisecond counters on the 32-bit target);
- the raw bytes of a struct field are read with `byteOf` (little-endian,
  as on the ESP32 target);
- `float`/`double` arithmetic is idealized over a field `R` (the claim
  theorems instantiate `R := ℝ`); the libm functions `atan2` and `sqrt`
  and the Arduino constant `PI` are external collaborators, passed in as
  an `AnalogOps` record, so every statement holds for the real functions;
- external effects (SD file creation, ESP-NOW peer table and send
  results) are oracle inputs, and the transport calls performed by a
  tick are returned as an explicit event trace.
-/

namespace WaterRocket

/-- Little-endian byte `i` of the in-memory representation of an
unsigned integer value `n` on the ESP32 target. -/
def byteOf (n : Nat) (i : Nat) : Nat := n / 256 ^ i % 256

/-- `2^32`, the modulus of `unsigned long` / `uint32_t` on the target. -/
def u32 : Nat := 2 ^ 32

/-- Wraparound-safe unsigned 32-bit subtraction `a - b`, the semantics of
`unsigned long` subtraction used for all elapsed-time computations
(`millis() - last...Time`). -/
def u32sub (a b : Nat) : Nat := (a % u32 + (u32 - b % u32)) % u32

/-! ## Command record (src/Foguete/include/Structs.h, src/src/main.cpp)

`CommandType` is a plain C enumeration; on the target it occupies 4
bytes inside the command structs, and the received value is an arbitrary
32-bit integer (the struct is filled by `memcpy` from the radio buffer),
so the `type` field is modelled as a `Nat`. -/

/-- Enumerator `NO_COMMAND = 0`. -/
def NO_COMMAND : Nat := 0
/-- Enumerator `START_FLIGHT = 1`. -/
def START_FLIGHT : Nat := 1
/-- Enumerator `END_FLIGHT = 2`. -/
def END_FLIGHT : Nat := 2
/-- Enumerator `ABORT_MISSION = 3`. -/
def ABORT_MISSION : Nat := 3
/-- Enumerator `RESET_SYSTEM = 4`. -/
def RESET_SYSTEM : Nat := 4

/-- `struct ControlCommand` of the flight unit (Foguete/include/Structs.h):
`CommandType type` (4 bytes), `uint32_t timestamp`, `uint16_t sequenceId`,
`uint8_t checksum`.  `static_assert(sizeof(ControlCommand) == 12)` holds on
the target: offsets are type 0..3, timestamp 4..7, sequenceId 8..9,
checksum 10, with one trailing padding byte at offset 11. -/
structure ControlCommand where
  type : Nat
  timestamp : Nat
  sequenceId : Nat
  checksum : Nat
deriving DecidableEq, Repr

/-- `sizeof(ControlCommand)`, checked by the source's `static_assert`. -/
def controlCommandSize : Nat := 12

/-- `ControlCommand::calculateChecksum`: sums the raw bytes of `*this`
for `i < sizeof(ControlCommand) - sizeof(checksum)`, i.e. `i < 11`, in
`uint8_t` arithmetic.  Offsets 0..10 cover the 4 `type` bytes, the 4
`timestamp` bytes, the 2 `sequenceId` bytes — and the `checksum` byte
itself at offset 10, because the byte excluded by `sizeof - 1` is the
trailing padding byte at offset 11. -/
def ControlCommand.calculateChecksum (c : ControlCommand) : Nat :=
  (byteOf c.type 0 + byteOf c.type 1 + byteOf c.type 2 + byteOf c.type 3 +
   byteOf c.timestamp 0 + byteOf c.timestamp 1 + byteOf c.timestamp 2 + byteOf c.timestamp 3 +
   byteOf c.sequenceId 0 + byteOf c.sequenceId 1 +
   byteOf c.checksum 0) % 256

/-- `ControlCommand::isValid`: `checksum == calculateChecksum()` (both
operands are `uint8_t` values). -/
def ControlCommand.isValid (c : ControlCommand) : Bool :=
  c.checksum % 256 == c.calculateChecksum

/-- `struct LaunchCommand` of the ground unit (src/src/main.cpp): the
same four fields as `ControlCommand`. -/
structure LaunchCommand where
  type : Nat
  timestamp : Nat
  sequenceId : Nat
  checksum : Nat
deriving DecidableEq, Repr

/-- `LaunchCommand::calculateChecksum` (the sender side):
`static_cast<uint8_t>(type) + (timestamp & 0xFF) + ((timestamp >> 8) & 0xFF)
 + ((timestamp >> 16) & 0xFF) + ((timestamp >> 24) & 0xFF)
 + (sequenceId & 0xFF) + ((sequenceId >> 8) & 0xFF)` in `uint8_t`
arithmetic — the sum of the command-kind byte, the 4 timestamp bytes and
the 2 sequence bytes, modulo 256. -/
def LaunchCommand.calculateChecksum (c : LaunchCommand) : Nat :=
  (byteOf c.type 0 +
   byteOf c.timestamp 0 + byteOf c.timestamp 1 + byteOf c.timestamp 2 + byteOf c.timestamp 3 +
   byteOf c.sequenceId 0 + byteOf c.sequenceId 1) % 256

/-- Checksum as the specification words it (spec section 4.2): the 8-bit
truncated sum of the bytes of the record preceding the checksum field —
the command-kind byte, the 4 timestamp bytes and the 2 sequence bytes.
This is a transcription of the spec text, kept separate so it can be
compared with the source's `ControlCommand.calculateChecksum`. -/
def specChecksum (c : ControlCommand) : Nat :=
  (byteOf c.type 0 +
   byteOf c.timestamp 0 + byteOf c.timestamp 1 + byteOf c.timestamp 2 + byteOf c.timestamp 3 +
   byteOf c.sequenceId 0 + byteOf c.sequenceId 1) % 256

/-- `isValid` as the specification words it: the checksum field equals
the sum (mod 256) of the preceding bytes. -/
def specIsValid (c : ControlCommand) : Bool :=
  c.checksum % 256 == specChecksum c

/-! ## Flight-state machine of the flight unit (src/unnamed/part_001)

State held in the globals `currentFlightState`, `currentLogFilename`,
`sdReady`, `isFlightLogging`, `flightStartTime`.  The SD card is an
external storage collaborator: whether `SD.open` succeeds is an oracle
input `fileOpenOk`, and `millis()` is the input `now`. -/

/-- `enum FlightState`. -/
inductive FlightState where
  | GROUND_STATE
  | PRE_FLIGHT
  | FLIGHT_ACTIVE
  | POST_FLIGHT
deriving DecidableEq, Repr

/-- The flight unit's logging/state-machine globals. -/
structure LogState where
  currentFlightState : FlightState
  currentLogFilename : String
  sdReady : Bool
  isFlightLogging : Bool
  flightStartTime : Nat
deriving DecidableEq, Repr

/-- Zero-pad a decimal rendering to 6 digits, as `snprintf "%06lu"`. -/
def pad6 (n : Nat) : String :=
  String.mk (List.replicate (6 - (toString n).length) '0') ++ toString n

/-- `generateLogFilename()`: `"/flight_log_%06lu.csv"` with
`millis() / 1000`. -/
def generateLogFilename (now : Nat) : String :=
  "/flight_log_" ++ pad6 (now / 1000) ++ ".csv"

/-- `startNewFlightLog()`: returns unchanged if the SD card is not
ready; otherwise assigns `currentLogFilename` and opens the file, and
only if the file opened sets `FLIGHT_ACTIVE`, `isFlightLogging` and
`flightStartTime = millis()`. -/
def startNewFlightLog (s : LogState) (now : Nat) (fileOpenOk : Bool) : LogState :=
  if !s.sdReady then s
  else
    let s1 := { s with currentLogFilename := generateLogFilename now }
    if fileOpenOk then
      { s1 with currentFlightState := .FLIGHT_ACTIVE,
                isFlightLogging := true,
                flightStartTime := now }
    else s1

/-- `endFlightLog()`: returns unchanged if not logging; otherwise moves
to `POST_FLIGHT`, stops logging, computes
`(millis() - flightStartTime) / 1000` (unsigned 32-bit subtraction), and
resets the filename.  The reported flight duration in seconds is
returned alongside the new state. -/
def endFlightLog (s : LogState) (now : Nat) : LogState × Option Nat :=
  if !s.isFlightLogging then (s, none)
  else
    let flightDuration := u32sub now s.flightStartTime / 1000
    ({ s with currentFlightState := .POST_FLIGHT,
              isFlightLogging := false,
              currentLogFilename := "" },
     some flightDuration)

namespace FlightUnit

/-- `onEspNowReceive` of the flight unit (src/unnamed/part_001): if the
length equals `sizeof(ControlCommand)` the buffer is copied into a
`ControlCommand` and the switch on `command.type` runs `startNewFlightLog`
(only from `GROUND_STATE`) or `endFlightLog` (only from `FLIGHT_ACTIVE`);
every other kind only logs a diagnostic.  No checksum check appears in the
source.  Returns the new state and the reported flight duration, if any. -/
def onEspNowReceive (s : LogState) (len : Nat) (command : ControlCommand)
    (now : Nat) (fileOpenOk : Bool) : LogState × Option Nat :=
  if len = controlCommandSize then
    if command.type = START_FLIGHT then
      (if s.currentFlightState = .GROUND_STATE then startNewFlightLog s now fileOpenOk
       else s, none)
    else if command.type = END_FLIGHT then
      (if s.currentFlightState = .FLIGHT_ACTIVE then endFlightLog s now
       else (s, none))
    else (s, none)
  else (s, none)

end FlightUnit

/-- The flight unit's globals after `setup()` in src/unnamed/part_001:
`GROUND_STATE`, empty filename, `sdReady = false` (the SD-card
initialization block in `setup` is commented out, so `sdReady` keeps its
initializer `false`), not logging, zero-initialized start time. -/
def initialLogState : LogState :=
  { currentFlightState := .GROUND_STATE
    currentLogFilename := ""
    sdReady := false
    isFlightLogging := false
    flightStartTime := 0 }

/-! ## Telemetry record sizes (src/Foguete/include/Structs.h)

All structs are `#pragma pack(push, 1)` — no padding; `float` and `int`
are 4 bytes on the target. -/

/-- `sizeof(AcelerometerData)`: 9 floats. -/
def acelerometerDataSize : Nat := 9 * 4
/-- `sizeof(AltimeterData)`: 2 floats. -/
def altimeterDataSize : Nat := 2 * 4
/-- `sizeof(VoltageData)`: 2 floats (`voltage_base`, `voltage_rocket`). -/
def voltageDataSize : Nat := 2 * 4
/-- `sizeof(GPSData)`: 3 floats and 6 ints. -/
def gpsDataSize : Nat := 3 * 4 + 6 * 4
/-- `sizeof(SensorData)`: the packed concatenation plus the `float`
timestamp. -/
def sensorDataSize : Nat :=
  acelerometerDataSize + altimeterDataSize + voltageDataSize + gpsDataSize + 4

/-! ## Ground unit receive path (src/src/main.cpp)

The ground unit stores the latest telemetry record (`dadosRecebidos`) and
a notification flag (`dadosAtualizados`).  The record is filled by a
byte-for-byte `memcpy` of the inbound buffer, so it is modelled as the
raw byte vector of the packed struct. -/

/-- The ground unit's shared reception state. -/
structure GroundState where
  dadosRecebidos : List Nat
  dadosAtualizados : Bool
deriving DecidableEq, Repr

namespace GroundUnit

/-- `onEspNowReceive` of the ground unit: rejects any buffer whose
length differs from `sizeof(SensorData)` (log and `return`, touching
nothing); otherwise `memcpy`s the buffer into `dadosRecebidos` and sets
`dadosAtualizados = true`. -/
def onEspNowReceive (s : GroundState) (incomingData : List Nat) : GroundState :=
  if incomingData.length ≠ sensorDataSize then s
  else { dadosRecebidos := incomingData, dadosAtualizados := true }

end GroundUnit

/-! ## Flight unit sampling and transmission (src/Foguete/src/main.cpp)

Floating-point values are idealized over a field `R`; the claim theorems
instantiate `R := ℝ`.  The libm functions `atan2` and `sqrt` and the
Arduino constant `PI` come from outside the core, so they are inputs
(`AnalogOps`); `RAD_TO_DEG` is the exact conversion factor `180 / PI`. -/

/-- The external analog operations used by the fusion code. -/
structure AnalogOps (R : Type) where
  atan2 : R → R → R
  sqrtF : R → R
  piV : R

/-- `SENSOR_READ_INTERVAL = 100` ms (10 Hz). -/
def SENSOR_READ_INTERVAL : Nat := 100
/-- `TRANSMISSION_INTERVAL = 500` ms (2 Hz). -/
def TRANSMISSION_INTERVAL : Nat := 500
/-- `COMPLEMENTARY_FILTER_ALPHA = 0.98`. -/
def COMPLEMENTARY_FILTER_ALPHA (R : Type) [Field R] : R := 98 / 100
/-- `VREF = 3.3` V. -/
def VREF (R : Type) [Field R] : R := 33 / 10
/-- `Config::Hardware::ADC_MULTIPLIER = 2.0`. -/
def ADC_MULTIPLIER (R : Type) [Field R] : R := 2

/-- `struct AcelerometerData`: 9 packed floats. -/
structure AcelerometerData (R : Type) where
  accX : R
  accY : R
  accZ : R
  gyroX : R
  gyroY : R
  gyroZ : R
  temp : R
  pitch : R
  roll : R
deriving DecidableEq, Repr

/-- `struct AltimeterData`. -/
structure AltimeterData (R : Type) where
  pressure : R
  altitude : R
deriving DecidableEq, Repr

/-- `struct VoltageData`. -/
structure VoltageData (R : Type) where
  voltage_base : R
  voltage_rocket : R
deriving DecidableEq, Repr

/-- `struct GPSData`: position floats and UTC date/time ints, in the
source's declaration order `latitude, longitude, altitude, day, month,
year, hour, minute, second`. -/
structure GPSData (R : Type) where
  latitude : R
  longitude : R
  altitude : R
  day : Int
  month : Int
  year : Int
  hour : Int
  minute : Int
  second : Int
deriving DecidableEq, Repr

/-- `struct SensorData`: the packed telemetry record. -/
structure SensorData (R : Type) where
  acelerometro : AcelerometerData R
  altimetro : AltimeterData R
  tensao : VoltageData R
  gps : GPSData R
  timestamp : R
deriving DecidableEq, Repr

/-- One `mpu.getEvent` reading: acceleration in m/s², gyro rates in
rad/s (the Adafruit driver's unit), temperature in °C. -/
structure MpuEvent (R : Type) where
  ax : R
  ay : R
  az : R
  gx : R
  gy : R
  gz : R
  temp : R
deriving DecidableEq, Repr

/-- One reading of the TinyGPS++ collaborator: location, altitude in
meters, and the UTC date/time accessors. -/
structure GpsFix (R : Type) where
  lat : R
  lng : R
  altMeters : R
  year : Int
  month : Int
  day : Int
  hour : Int
  minute : Int
  second : Int
deriving DecidableEq, Repr

/-- The flight unit's sampling/transmission globals: the two cadence
timestamps, the `static` warm-up timestamp inside `updateSensorData`,
the fused `pitch`/`roll` globals, and the shared telemetry record. -/
structure FogueteState (R : Type) where
  lastSensorReadTime : Nat
  lastTransmissionTime : Nat
  lastUpdateTime : Nat
  pitch : R
  roll : R
  sensorData : SensorData R
deriving DecidableEq, Repr

namespace Foguete

/-- `updateSensorData()` (src/Foguete/src/main.cpp, lines 269-330).

Inputs beyond the state: `now = millis()`, the raw ADC reading, the MPU
event, the BMP280 pressure in Pa and altitude in m, and the GPS fix.

The body in source order: the ADC is read and
`sensorData.tensao.voltage_rocket` is overwritten *before* the cadence
gate; the gate returns if the wraparound-safe elapsed time is below
`SENSOR_READ_INTERVAL`; the MPU is read (no state effect) and the static
accelerometer angles are formed; on the warm-up invocation
(`lastUpdateTime == 0`) the function records the timestamp and returns
before writing any telemetry field; otherwise the complementary filter
updates `pitch`/`roll` and the record is filled.  The GPS initializer
lists `year(), month(), day()` in that order against the struct fields
`day, month, year`, so the transcription below assigns `fix.year` to the
`day` field and `fix.day` to the `year` field exactly as the source
does. -/
def updateSensorData {R : Type} [Field R] (ops : AnalogOps R) (s : FogueteState R)
    (now : Nat) (leituraADC : Nat) (m : MpuEvent R)
    (bmpPressurePa : R) (bmpAltitude : R) (fix : GpsFix R) : FogueteState R :=
  let tensaoPino : R := ((leituraADC : R) / 4095) * VREF R
  let tensaoReal : R := tensaoPino * ADC_MULTIPLIER R
  let s0 := { s with sensorData.tensao.voltage_rocket := tensaoReal }
  if u32sub now s0.lastSensorReadTime < SENSOR_READ_INTERVAL then s0
  else
    let s1 := { s0 with lastSensorReadTime := now }
    let accPitch : R := ops.atan2 m.ay (ops.sqrtF (m.ax ^ 2 + m.az ^ 2)) * 180 / ops.piV
    let accRoll : R := ops.atan2 (-m.ax) m.az * 180 / ops.piV
    if s1.lastUpdateTime = 0 then
      { s1 with lastUpdateTime := now }
    else
      let dt : R := (u32sub now s1.lastUpdateTime : R) / 1000
      let RAD_TO_DEG : R := 180 / ops.piV
      let pitch1 : R := COMPLEMENTARY_FILTER_ALPHA R * (s1.pitch + m.gx * dt * RAD_TO_DEG) +
        (1 - COMPLEMENTARY_FILTER_ALPHA R) * accPitch
      let roll1 : R := COMPLEMENTARY_FILTER_ALPHA R * (s1.roll + m.gy * dt * RAD_TO_DEG) +
        (1 - COMPLEMENTARY_FILTER_ALPHA R) * accRoll
      { s1 with
        lastUpdateTime := now
        pitch := pitch1
        roll := roll1
        sensorData := { s1.sensorData with
          acelerometro := ⟨m.ax, m.ay, m.az, m.gx, m.gy, m.gz, m.temp, pitch1, roll1⟩
          altimetro := ⟨bmpPressurePa / 100, bmpAltitude⟩
          gps := ⟨fix.lat, fix.lng, fix.altMeters,
                  fix.year, fix.month, fix.day, fix.hour, fix.minute, fix.second⟩
          timestamp := (now : R) } }

end Foguete

/-- `esp_err_t` results of `esp_now_send` distinguished by
`handleCommunicationErrors`. -/
inductive EspErr where
  | ok
  | notInitErr
  | argErr
  | noMemErr
  | other (code : Int)
deriving DecidableEq, Repr

/-- The transport calls and diagnostics performed by one tick, in
program order. -/
inductive TransportEvent (R : Type) where
  | addPeer
  | addPeerFailedLog
  | send (data : SensorData R)
  | sendOkLog
  | notInitLog
  | argLog
  | noMemLog
  | unknownLog (code : Int)
  | wifiModeSta
  | espNowStart
  | restart
  | registerSendCb
deriving DecidableEq, Repr

/-- `setupEspNow()`: station mode, `esp_now_init` (restarting the chip
on failure), re-registering the send callback and re-adding the
broadcast peer (logging if the add fails). -/
def setupEspNow {R : Type} (espNowStartOk addPeerOk : Bool) : List (TransportEvent R) :=
  if espNowStartOk then
    [.wifiModeSta, .espNowStart, .registerSendCb, .addPeer] ++
      (if addPeerOk then [] else [.addPeerFailedLog])
  else [.wifiModeSta, .espNowStart, .restart]

/-- `handleCommunicationErrors(result)`: success and the
invalid-argument / out-of-memory / unknown failures are only logged;
`ESP_ERR_ESPNOW_NOT_INIT` additionally runs `setupEspNow()` (whose
outcome depends on the transport oracles). -/
def handleCommunicationErrors {R : Type} (result : EspErr)
    (espNowStartOk addPeerOk : Bool) : List (TransportEvent R) :=
  match result with
  | .ok => [.sendOkLog]
  | .notInitErr => .notInitLog :: setupEspNow espNowStartOk addPeerOk
  | .argErr => [.argLog]
  | .noMemErr => [.noMemLog]
  | .other code => [.unknownLog code]

namespace Foguete

/-- `transmitData()` (src/Foguete/src/main.cpp, lines 339-367): after
the 500 ms cadence gate, if the broadcast peer is not registered it is
added, and a failed add aborts the tick with a logged transport error
and no send; otherwise the current `sensorData` record is sent and the
result is classified by `handleCommunicationErrors`.  `peerExists`,
`addPeerOk`, `sendResult` and the reinitialization oracles stand for the
ESP-NOW collaborator. -/
def transmitData {R : Type} (s : FogueteState R) (now : Nat)
    (peerExists addPeerOk : Bool) (sendResult : EspErr)
    (reStartOk reAddPeerOk : Bool) : FogueteState R × List (TransportEvent R) :=
  if u32sub now s.lastTransmissionTime < TRANSMISSION_INTERVAL then (s, [])
  else
    let s1 := { s with lastTransmissionTime := now }
    if peerExists then
      (s1, .send s1.sensorData :: handleCommunicationErrors sendResult reStartOk reAddPeerOk)
    else if addPeerOk then
      (s1, .addPeer :: .send s1.sensorData ::
        handleCommunicationErrors sendResult reStartOk reAddPeerOk)
    else (s1, [.addPeer, .addPeerFailedLog])

end Foguete

/-- The all-zero telemetry record, the value of the global
`SensorData sensorData = {};` after startup. -/
def sensorDataZero : SensorData ℝ :=
  ⟨⟨0, 0, 0, 0, 0, 0, 0, 0, 0⟩, ⟨0, 0⟩, ⟨0, 0⟩, ⟨0, 0, 0, 0, 0, 0, 0, 0, 0⟩, 0⟩

/-- The flight unit's sampling/transmission globals after `setup()`:
both cadence timestamps 0, warm-up timestamp 0, fused angles 0, and the
zero-initialized record. -/
def initialFogueteState : FogueteState ℝ :=
  ⟨0, 0, 0, 0, 0, sensorDataZero⟩

/-- A concrete instantiation of the external analog operations, used
only to build concrete witnesses. -/
def opsR0 : AnalogOps ℝ := ⟨fun _ _ => 0, fun _ => 0, 3⟩

/-! ## Theorems -/

/-- C1: The flight unit's receive path acts on the command kind without
ever calling `isValid`: a 12-byte record whose checksum is invalid both
under the source's `isValid` and under the spec's checksum definition,
received while the state is `FLIGHT_ACTIVE` with a logging session open,
still drives the `END_FLIGHT` transition to `POST_FLIGHT` — the record
is not discarded and the flight state changes. -/
theorem checksum_never_validated_before_acting :
    ControlCommand.isValid ⟨2, 0, 0, 37⟩ = false ∧
    specIsValid ⟨2, 0, 0, 37⟩ = false ∧
    (FlightUnit.onEspNowReceive
        ⟨.FLIGHT_ACTIVE, "/flight_log_000000.csv", false, true, 0⟩
        12 ⟨2, 0, 0, 37⟩ 5000 false).1.currentFlightState = .POST_FLIGHT := by
  decide

/-- C2: The record `{type = START_FLIGHT, timestamp = 0, sequenceId = 0,
checksum = 1}` has checksum field equal to the sum (mod 256) of the
bytes preceding the checksum field (the spec's definition, and the value
the ground unit's `LaunchCommand::calculateChecksum` produces), yet
`ControlCommand::isValid` rejects it: `calculateChecksum` iterates over
`sizeof(ControlCommand) - 1 = 11` bytes, which includes the checksum
byte itself at offset 10 (the byte excluded is the trailing padding
byte), so it returns 2 instead of 1. -/
theorem checksum_sums_own_byte :
    specIsValid ⟨1, 0, 0, 1⟩ = true ∧
    LaunchCommand.calculateChecksum ⟨1, 0, 0, 1⟩ = 1 ∧
    ControlCommand.calculateChecksum ⟨1, 0, 0, 1⟩ = 2 ∧
    ControlCommand.isValid ⟨1, 0, 0, 1⟩ = false := by
  decide

/-- C3: A buffer whose length differs from the fixed record size is
rejected by both receive paths with no mutation of shared state: the
ground unit keeps its stored telemetry bytes and data-updated flag, and
the flight unit keeps its entire logging/flight state and reports
nothing. -/
theorem length_mismatch_rejected (g : GroundState) (buf : List Nat)
    (hg : buf.length ≠ sensorDataSize)
    (s : LogState) (len : Nat) (cmd : ControlCommand) (now : Nat) (ok : Bool)
    (hf : len ≠ controlCommandSize) :
    GroundUnit.onEspNowReceive g buf = g ∧
    FlightUnit.onEspNowReceive s len cmd now ok = (s, none) := by
  constructor
  · simp [GroundUnit.onEspNowReceive, hg]
  · simp [FlightUnit.onEspNowReceive, hf]

/-- Witness for C3 at lengths `sizeof(SensorData) - 1 = 91` (ground) and
`0` (flight unit). -/
theorem length_mismatch_rejected_witness :
    (List.replicate 91 (0 : Nat)).length ≠ sensorDataSize ∧
    (0 : Nat) ≠ controlCommandSize ∧
    GroundUnit.onEspNowReceive ⟨List.replicate 92 7, false⟩ (List.replicate 91 0) =
      ⟨List.replicate 92 7, false⟩ ∧
    FlightUnit.onEspNowReceive initialLogState 0 ⟨1, 255, 0, 0⟩ 42 true =
      (initialLogState, none) := by
  refine ⟨by decide, by decide, ?_⟩
  exact length_mismatch_rejected ⟨List.replicate 92 7, false⟩ (List.replicate 91 0)
    (by decide) initialLogState 0 ⟨1, 255, 0, 0⟩ 42 true (by decide)

/-- C4 counterexample: in this revision `setup()` leaves `sdReady`
false (its SD-initialization block is commented out), so a start-flight
command that is valid both under the source's `isValid` and under the
spec's checksum, received in `GROUND_STATE`, changes nothing: the claim
that every such command transitions the machine to `FLIGHT_ACTIVE` fails
at this input. -/
theorem start_flight_without_sd_stays_ground :
    ControlCommand.isValid ⟨1, 255, 0, 0⟩ = true ∧
    specIsValid ⟨1, 255, 0, 0⟩ = true ∧
    initialLogState.currentFlightState = .GROUND_STATE ∧
    (FlightUnit.onEspNowReceive initialLogState 12 ⟨1, 255, 0, 0⟩ 1000 true).1 =
      initialLogState := by
  decide

/-- C4 (amended): a validated start-flight command received in
`GROUND_STATE` transitions to `FLIGHT_ACTIVE`, begins the logging
session (`isFlightLogging`, fresh log filename) and records the
flight-start timestamp — provided the SD storage collaborator is ready
and the log file opens. -/
theorem start_flight_transition_with_storage (s : LogState) (cmd : ControlCommand)
    (now : Nat)
    (hstate : s.currentFlightState = .GROUND_STATE) (hsd : s.sdReady = true)
    (htype : cmd.type = START_FLIGHT) (hvalid : cmd.isValid = true) :
    FlightUnit.onEspNowReceive s 12 cmd now true =
      ({ s with currentFlightState := .FLIGHT_ACTIVE,
                currentLogFilename := generateLogFilename now,
                isFlightLogging := true,
                flightStartTime := now }, none) := by
  obtain ⟨a, b, c, d, e⟩ := s
  simp_all [FlightUnit.onEspNowReceive, startNewFlightLog, controlCommandSize,
    START_FLIGHT]

/-- Witness for C4 (amended): with the SD ready, the valid start-flight
command received at `t = 1000` ms moves the machine from `GROUND_STATE`
to `FLIGHT_ACTIVE`, starts logging to `/flight_log_000001.csv`, and
records start time 1000. -/
theorem start_flight_transition_with_storage_witness :
    (⟨.GROUND_STATE, "", true, false, 0⟩ : LogState).currentFlightState = .GROUND_STATE ∧
    (⟨.GROUND_STATE, "", true, false, 0⟩ : LogState).sdReady = true ∧
    ControlCommand.isValid ⟨1, 255, 0, 0⟩ = true ∧
    FlightUnit.onEspNowReceive ⟨.GROUND_STATE, "", true, false, 0⟩ 12 ⟨1, 255, 0, 0⟩ 1000 true =
      (⟨.FLIGHT_ACTIVE, "/flight_log_000001.csv", true, true, 1000⟩, none) := by
  refine ⟨rfl, rfl, by decide, ?_⟩
  exact start_flight_transition_with_storage ⟨.GROUND_STATE, "", true, false, 0⟩
    ⟨1, 255, 0, 0⟩ 1000 rfl rfl rfl (by decide)

/-- C5 counterexample: a sampling invocation 50 ms after the last sample
(below the 100 ms interval) is not a no-op: `updateSensorData` reads the
ADC and overwrites `sensorData.tensao.voltage_rocket` before the cadence
gate, so with ADC reading 4095 the stored flight-unit voltage changes
from 0 to 6.6 V. -/
theorem sampling_below_interval_not_noop :
    u32sub 50 initialFogueteState.lastSensorReadTime < SENSOR_READ_INTERVAL ∧
    (Foguete.updateSensorData opsR0 initialFogueteState 50 4095
        ⟨0, 0, 0, 0, 0, 0, 0⟩ 0 0 ⟨0, 0, 0, 0, 0, 0, 0, 0, 0⟩).sensorData.tensao.voltage_rocket ≠
      initialFogueteState.sensorData.tensao.voltage_rocket := by
  refine ⟨by decide, ?_⟩
  have h : u32sub 50 initialFogueteState.lastSensorReadTime < SENSOR_READ_INTERVAL := by
    decide
  simp only [Foguete.updateSensorData, initialFogueteState, sensorDataZero] at h ⊢
  rw [if_pos h]
  simp [VREF, ADC_MULTIPLIER]

/-- C5 (amended): a sampling invocation below the 100 ms interval
changes nothing except the flight-unit voltage field, which the code
overwrites unconditionally before the cadence gate; a transmission
invocation below the 500 ms interval is a complete no-op; the sampling
trigger fires (records the new sample time) exactly when the
wraparound-safe elapsed time is at least 100 ms, and the transmission
trigger exactly when it is at least 500 ms. -/
theorem cadence_gating (ops : AnalogOps ℝ) (s : FogueteState ℝ) (now adc : Nat)
    (m : MpuEvent ℝ) (p alt : ℝ) (fix : GpsFix ℝ)
    (pe addOk ro rao : Bool) (res : EspErr) :
    (u32sub now s.lastSensorReadTime < SENSOR_READ_INTERVAL →
      Foguete.updateSensorData ops s now adc m p alt fix =
        { s with sensorData := { s.sensorData with tensao :=
            { s.sensorData.tensao with voltage_rocket :=
                ((adc : ℝ) / 4095) * VREF ℝ * ADC_MULTIPLIER ℝ } } }) ∧
    (¬ u32sub now s.lastSensorReadTime < SENSOR_READ_INTERVAL →
      (Foguete.updateSensorData ops s now adc m p alt fix).lastSensorReadTime = now) ∧
    (u32sub now s.lastTransmissionTime < TRANSMISSION_INTERVAL →
      Foguete.transmitData s now pe addOk res ro rao = (s, [])) ∧
    (¬ u32sub now s.lastTransmissionTime < TRANSMISSION_INTERVAL →
      (Foguete.transmitData s now pe addOk res ro rao).1.lastTransmissionTime = now) := by
  refine ⟨?_, ?_, ?_, ?_⟩
  · intro h
    unfold Foguete.updateSensorData
    rw [if_pos (by simpa using h)]
  · intro h
    unfold Foguete.updateSensorData
    rw [if_neg (by simpa using h)]
    dsimp only
    split <;> rfl
  · intro h
    unfold Foguete.transmitData
    rw [if_pos h]
  · intro h
    unfold Foguete.transmitData
    rw [if_neg h]
    split <;> rename_i hpe
    · rfl
    · split <;> rfl

/-- Witness for C5 (amended), exercising both sides of each gate,
including a wraparound pair of millisecond counters (`now = 50` after
`lastSensorReadTime = 2^32 - 10`, an elapsed time of 60 ms). -/
theorem cadence_gating_witness :
    u32sub 50 (u32 - 10) < SENSOR_READ_INTERVAL ∧
    Foguete.updateSensorData opsR0 ⟨u32 - 10, 0, 0, 0, 0, sensorDataZero⟩ 50 0
        ⟨0, 0, 0, 0, 0, 0, 0⟩ 0 0 ⟨0, 0, 0, 0, 0, 0, 0, 0, 0⟩ =
      { (⟨u32 - 10, 0, 0, 0, 0, sensorDataZero⟩ : FogueteState ℝ) with
          sensorData := { sensorDataZero with tensao :=
            { sensorDataZero.tensao with voltage_rocket :=
                ((0 : Nat) : ℝ) / 4095 * VREF ℝ * ADC_MULTIPLIER ℝ } } } ∧
    (Foguete.updateSensorData opsR0 initialFogueteState 100 0
        ⟨0, 0, 0, 0, 0, 0, 0⟩ 0 0 ⟨0, 0, 0, 0, 0, 0, 0, 0, 0⟩).lastSensorReadTime = 100 ∧
    Foguete.transmitData initialFogueteState 499 true true .ok true true =
      (initialFogueteState, []) ∧
    (Foguete.transmitData initialFogueteState 500 true true .ok true true).1.lastTransmissionTime =
      500 := by
  refine ⟨by decide, ?_, ?_, ?_, ?_⟩
  · exact (cadence_gating opsR0 ⟨u32 - 10, 0, 0, 0, 0, sensorDataZero⟩ 50 0
      ⟨0, 0, 0, 0, 0, 0, 0⟩ 0 0 ⟨0, 0, 0, 0, 0, 0, 0, 0, 0⟩ true true true true .ok).1
      (by decide)
  · exact (cadence_gating opsR0 initialFogueteState 100 0
      ⟨0, 0, 0, 0, 0, 0, 0⟩ 0 0 ⟨0, 0, 0, 0, 0, 0, 0, 0, 0⟩ true true true true .ok).2.1
      (by decide)
  · exact (cadence_gating opsR0 initialFogueteState 499 0
      ⟨0, 0, 0, 0, 0, 0, 0⟩ 0 0 ⟨0, 0, 0, 0, 0, 0, 0, 0, 0⟩ true true true true .ok).2.2.1
      (by decide)
  · exact (cadence_gating opsR0 initialFogueteState 500 0
      ⟨0, 0, 0, 0, 0, 0, 0⟩ 0 0 ⟨0, 0, 0, 0, 0, 0, 0, 0, 0⟩ true true true true .ok).2.2.2
      (by decide)

/-- C6: after the warm-up tick (`lastUpdateTime ≠ 0`), a sampling step
that passes the cadence gate updates the fused angles by the
complementary-filter recurrence with coefficients 0.98 and 0.02: the new
pitch is `0.98 * (previous + gx * dt) + 0.02 * (atan2(ay, sqrt(ax² + az²))
in degrees)` where `gx` is the gyro X rate converted to degrees per
second and `dt = elapsed / 1000`, and the new roll is the analogue with
`gy` and `atan2(-ax, az)`. -/
theorem complementary_filter_recurrence (ops : AnalogOps ℝ) (s : FogueteState ℝ)
    (now adc : Nat) (m : MpuEvent ℝ) (p alt : ℝ) (fix : GpsFix ℝ)
    (hgate : ¬ u32sub now s.lastSensorReadTime < SENSOR_READ_INTERVAL)
    (hwarm : s.lastUpdateTime ≠ 0) :
    (Foguete.updateSensorData ops s now adc m p alt fix).pitch =
      0.98 * (s.pitch + (m.gx * (180 / ops.piV)) *
          ((u32sub now s.lastUpdateTime : ℝ) / 1000)) +
        0.02 * (ops.atan2 m.ay (ops.sqrtF (m.ax ^ 2 + m.az ^ 2)) * 180 / ops.piV) ∧
    (Foguete.updateSensorData ops s now adc m p alt fix).roll =
      0.98 * (s.roll + (m.gy * (180 / ops.piV)) *
          ((u32sub now s.lastUpdateTime : ℝ) / 1000)) +
        0.02 * (ops.atan2 (-m.ax) m.az * 180 / ops.piV) := by
  unfold Foguete.updateSensorData
  rw [if_neg (by simpa using hgate)]
  rw [if_neg (by simpa using hwarm)]
  constructor <;>
    · show COMPLEMENTARY_FILTER_ALPHA ℝ * _ + (1 - COMPLEMENTARY_FILTER_ALPHA ℝ) * _ = _
      rw [COMPLEMENTARY_FILTER_ALPHA]
      norm_num
      ring

/-- Witness for C6 at a concrete post-warm-up state: previous pitch 1,
previous roll 2, last update at 40 ms, sample at 140 ms (`dt` 0.1 s). -/
theorem complementary_filter_recurrence_witness :
    ¬ u32sub 140 40 < SENSOR_READ_INTERVAL ∧
    (40 : Nat) ≠ 0 ∧
    (Foguete.updateSensorData opsR0 ⟨40, 0, 40, 1, 2, sensorDataZero⟩ 140 0
        ⟨1, 1, 1, 1, 1, 1, 20⟩ 0 0 ⟨0, 0, 0, 0, 0, 0, 0, 0, 0⟩).pitch =
      0.98 * ((1 : ℝ) + ((1 : ℝ) * (180 / opsR0.piV)) * ((u32sub 140 40 : ℝ) / 1000)) +
        0.02 * (opsR0.atan2 1 (opsR0.sqrtF ((1 : ℝ) ^ 2 + (1 : ℝ) ^ 2)) * 180 / opsR0.piV) := by
  refine ⟨by decide, by decide, ?_⟩
  exact (complementary_filter_recurrence opsR0 ⟨40, 0, 40, 1, 2, sensorDataZero⟩ 140 0
    ⟨1, 1, 1, 1, 1, 1, 20⟩ 0 0 ⟨0, 0, 0, 0, 0, 0, 0, 0, 0⟩ (by decide) (by decide)).1

/-- C7 counterexample: two consecutive start-flight commands, valid
under both checksum notions, issued from the revision's actual initial
state (`GROUND_STATE` with `sdReady = false`), leave the machine in
`GROUND_STATE` — the state does not transition exactly once to
`FLIGHT_ACTIVE` as claimed, because `startNewFlightLog` aborts when the
SD storage is not ready. -/
theorem double_start_without_sd_stays_ground :
    ControlCommand.isValid ⟨1, 255, 0, 0⟩ = true ∧
    specIsValid ⟨1, 255, 0, 0⟩ = true ∧
    (FlightUnit.onEspNowReceive
        (FlightUnit.onEspNowReceive initialLogState 12 ⟨1, 255, 0, 0⟩ 1000 true).1
        12 ⟨1, 255, 0, 0⟩ 1100 true).1.currentFlightState = .GROUND_STATE := by
  decide

/-- C7 (amended): provided the SD storage is ready and the log file
opens, two consecutive validated start-flight commands from
`GROUND_STATE` transition the machine exactly once: the first reaches
`FLIGHT_ACTIVE` and begins the logging session, and the second changes
nothing at all.  Unconditionally, a validated end-flight command
received while the state is not `FLIGHT_ACTIVE` is a no-op. -/
theorem start_idempotent_end_guarded (s : LogState) (c1 c2 : ControlCommand)
    (t1 t2 : Nat)
    (hstate : s.currentFlightState = .GROUND_STATE) (hsd : s.sdReady = true)
    (h1 : c1.type = START_FLIGHT) (h2 : c2.type = START_FLIGHT)
    (hv1 : c1.isValid = true) (hv2 : c2.isValid = true) :
    (FlightUnit.onEspNowReceive s 12 c1 t1 true).1.currentFlightState = .FLIGHT_ACTIVE ∧
    (FlightUnit.onEspNowReceive s 12 c1 t1 true).1.isFlightLogging = true ∧
    FlightUnit.onEspNowReceive (FlightUnit.onEspNowReceive s 12 c1 t1 true).1
        12 c2 t2 true =
      ((FlightUnit.onEspNowReceive s 12 c1 t1 true).1, none) ∧
    (∀ (s' : LogState) (ce : ControlCommand) (te : Nat) (ok : Bool),
      ce.type = END_FLIGHT → ce.isValid = true →
      s'.currentFlightState ≠ .FLIGHT_ACTIVE →
      FlightUnit.onEspNowReceive s' 12 ce te ok = (s', none)) := by
  have hfirst : FlightUnit.onEspNowReceive s 12 c1 t1 true =
      ({ s with currentFlightState := .FLIGHT_ACTIVE,
                currentLogFilename := generateLogFilename t1,
                isFlightLogging := true,
                flightStartTime := t1 }, none) := by
    obtain ⟨a, b, c, d, e⟩ := s
    simp_all [FlightUnit.onEspNowReceive, startNewFlightLog, controlCommandSize,
      START_FLIGHT]
  refine ⟨by rw [hfirst], by rw [hfirst], ?_, ?_⟩
  · rw [hfirst]
    simp [FlightUnit.onEspNowReceive, controlCommandSize, h2, START_FLIGHT]
  · intro s' ce te ok hty hv hns
    simp [FlightUnit.onEspNowReceive, controlCommandSize, hty, START_FLIGHT, END_FLIGHT,
      hns]

/-- Witness for C7 (amended): with the SD ready, starts at 1000 ms and
1100 ms transition once to `FLIGHT_ACTIVE`, and an end-flight command in
`POST_FLIGHT` is a no-op. -/
theorem start_idempotent_end_guarded_witness :
    (⟨.GROUND_STATE, "", true, false, 0⟩ : LogState).currentFlightState = .GROUND_STATE ∧
    ControlCommand.isValid ⟨1, 255, 0, 0⟩ = true ∧
    (FlightUnit.onEspNowReceive ⟨.GROUND_STATE, "", true, false, 0⟩ 12
        ⟨1, 255, 0, 0⟩ 1000 true).1.currentFlightState = .FLIGHT_ACTIVE ∧
    FlightUnit.onEspNowReceive
        (FlightUnit.onEspNowReceive ⟨.GROUND_STATE, "", true, false, 0⟩ 12
          ⟨1, 255, 0, 0⟩ 1000 true).1 12 ⟨1, 255, 0, 0⟩ 1100 true =
      ((FlightUnit.onEspNowReceive ⟨.GROUND_STATE, "", true, false, 0⟩ 12
          ⟨1, 255, 0, 0⟩ 1000 true).1, none) ∧
    FlightUnit.onEspNowReceive ⟨.POST_FLIGHT, "", true, false, 1000⟩ 12
        ⟨2, 254, 0, 0⟩ 2000 true =
      (⟨.POST_FLIGHT, "", true, false, 1000⟩, none) := by
  have h := start_idempotent_end_guarded ⟨.GROUND_STATE, "", true, false, 0⟩
    ⟨1, 255, 0, 0⟩ ⟨1, 255, 0, 0⟩ 1000 1100 rfl rfl rfl rfl (by decide) (by decide)
  exact ⟨rfl, by decide, h.1, h.2.2.1,
    h.2.2.2 ⟨.POST_FLIGHT, "", true, false, 1000⟩ ⟨2, 254, 0, 0⟩ 2000 true rfl
      (by decide) (by decide)⟩

/-- C8: a validated end-flight command received while the state is
`FLIGHT_ACTIVE` (with its logging session open) moves the machine to
`POST_FLIGHT`, ends the session, and reports a flight duration of
`(now - flightStartTime)` milliseconds (wraparound-safe unsigned
subtraction) converted to whole seconds. -/
theorem end_flight_transition (s : LogState) (cmd : ControlCommand) (now : Nat)
    (ok : Bool)
    (hstate : s.currentFlightState = .FLIGHT_ACTIVE) (hlog : s.isFlightLogging = true)
    (htype : cmd.type = END_FLIGHT) (hvalid : cmd.isValid = true) :
    FlightUnit.onEspNowReceive s 12 cmd now ok =
      ({ s with currentFlightState := .POST_FLIGHT,
                isFlightLogging := false,
                currentLogFilename := "" },
       some (u32sub now s.flightStartTime / 1000)) := by
  obtain ⟨a, b, c, d, e⟩ := s
  simp_all [FlightUnit.onEspNowReceive, endFlightLog, controlCommandSize,
    START_FLIGHT, END_FLIGHT]

/-- Witness for C8: a flight started at `t = 0` and ended by a valid
end-flight command at `t = 5000` ms reaches `POST_FLIGHT` with a
reported duration of 5 seconds. -/
theorem end_flight_transition_witness :
    (⟨.FLIGHT_ACTIVE, "/flight_log_000000.csv", false, true, 0⟩ : LogState).currentFlightState =
      .FLIGHT_ACTIVE ∧
    ControlCommand.isValid ⟨2, 254, 0, 0⟩ = true ∧
    FlightUnit.onEspNowReceive ⟨.FLIGHT_ACTIVE, "/flight_log_000000.csv", false, true, 0⟩
        12 ⟨2, 254, 0, 0⟩ 5000 false =
      (⟨.POST_FLIGHT, "", false, false, 0⟩, some 5) := by
  refine ⟨rfl, by decide, ?_⟩
  exact end_flight_transition ⟨.FLIGHT_ACTIVE, "/flight_log_000000.csv", false, true, 0⟩
    ⟨2, 254, 0, 0⟩ 5000 false rfl rfl rfl (by decide)

/-- C9: once the 500 ms gate has elapsed — (1) with the broadcast peer
unknown and the add failing, the tick performs only the add attempt and
the logged transport error, with no send and no retry; (2) with the peer
unknown and the add succeeding, the peer is added before the send;
(3) a not-initialized send failure runs the full transport
re-initialization (station mode, ESP-NOW start, re-register send
callback, re-add peer) before any further send attempt; (4)-(6) the
invalid-argument, out-of-memory and unknown send failures produce only
their log entry — no re-initialization and no retry. -/
theorem transmit_peer_and_error_handling (s : FogueteState ℝ) (now : Nat)
    (addOk ro rao : Bool) (res : EspErr) (code : Int)
    (hgate : ¬ u32sub now s.lastTransmissionTime < TRANSMISSION_INTERVAL) :
    Foguete.transmitData s now false false res ro rao =
      ({ s with lastTransmissionTime := now }, [.addPeer, .addPeerFailedLog]) ∧
    Foguete.transmitData s now false true res ro rao =
      ({ s with lastTransmissionTime := now },
       .addPeer :: .send s.sensorData :: handleCommunicationErrors res ro rao) ∧
    Foguete.transmitData s now true addOk .notInitErr true true =
      ({ s with lastTransmissionTime := now },
       [.send s.sensorData, .notInitLog, .wifiModeSta, .espNowStart,
        .registerSendCb, .addPeer]) ∧
    Foguete.transmitData s now true addOk .argErr ro rao =
      ({ s with lastTransmissionTime := now }, [.send s.sensorData, .argLog]) ∧
    Foguete.transmitData s now true addOk .noMemErr ro rao =
      ({ s with lastTransmissionTime := now }, [.send s.sensorData, .noMemLog]) ∧
    Foguete.transmitData s now true addOk (.other code) ro rao =
      ({ s with lastTransmissionTime := now },
       [.send s.sensorData, .unknownLog code]) := by
  refine ⟨?_, ?_, ?_, ?_, ?_, ?_⟩ <;>
    simp [Foguete.transmitData, hgate, handleCommunicationErrors, setupEspNow]

/-- Witness for C9 at `now = 500` from the initial state, exercising the
failed peer add, the successful add, and all four send-result classes. -/
theorem transmit_peer_and_error_handling_witness :
    ¬ u32sub 500 initialFogueteState.lastTransmissionTime < TRANSMISSION_INTERVAL ∧
    Foguete.transmitData initialFogueteState 500 false false .ok true true =
      ({ initialFogueteState with lastTransmissionTime := 500 },
       [.addPeer, .addPeerFailedLog]) ∧
    Foguete.transmitData initialFogueteState 500 true true .notInitErr true true =
      ({ initialFogueteState with lastTransmissionTime := 500 },
       [.send initialFogueteState.sensorData, .notInitLog, .wifiModeSta, .espNowStart,
        .registerSendCb, .addPeer]) ∧
    Foguete.transmitData initialFogueteState 500 true true .argErr true true =
      ({ initialFogueteState with lastTransmissionTime := 500 },
       [.send initialFogueteState.sensorData, .argLog]) ∧
    Foguete.transmitData initialFogueteState 500 true true (.other 7) true true =
      ({ initialFogueteState with lastTransmissionTime := 500 },
       [.send initialFogueteState.sensorData, .unknownLog 7]) := by
  have h := transmit_peer_and_error_handling initialFogueteState 500 true true true
    .ok 7 (by decide)
  exact ⟨by decide, h.1, h.2.2.1, h.2.2.2.1, h.2.2.2.2.2⟩

/-- C10: starting from the zero-initialized globals, the first sampling
invocation that passes the 100 ms gate is the warm-up tick: it records
the sample time and the warm-up timestamp but returns before writing the
motion, pressure/altitude, GPS and timestamp fields, so every telemetry
field except the flight-unit voltage still holds its zero initial value;
and a transmission tick occurring before the second sample broadcasts
exactly this zero-filled record. -/
theorem warmup_tick_zero_record (ops : AnalogOps ℝ) (now now2 adc : Nat)
    (m : MpuEvent ℝ) (p alt : ℝ) (fix : GpsFix ℝ) (res : EspErr) (ro rao : Bool)
    (hgate : ¬ u32sub now 0 < SENSOR_READ_INTERVAL)
    (hgate2 : ¬ u32sub now2 0 < TRANSMISSION_INTERVAL) :
    Foguete.updateSensorData ops initialFogueteState now adc m p alt fix =
      { initialFogueteState with
          lastSensorReadTime := now
          lastUpdateTime := now
          sensorData := { sensorDataZero with tensao :=
            ⟨0, ((adc : ℝ) / 4095) * VREF ℝ * ADC_MULTIPLIER ℝ⟩ } } ∧
    (Foguete.transmitData
        (Foguete.updateSensorData ops initialFogueteState now adc m p alt fix)
        now2 true true res ro rao).2 =
      .send { sensorDataZero with tensao :=
          ⟨0, ((adc : ℝ) / 4095) * VREF ℝ * ADC_MULTIPLIER ℝ⟩ } ::
        handleCommunicationErrors res ro rao := by
  have hupd : Foguete.updateSensorData ops initialFogueteState now adc m p alt fix =
      { initialFogueteState with
          lastSensorReadTime := now
          lastUpdateTime := now
          sensorData := { sensorDataZero with tensao :=
            ⟨0, ((adc : ℝ) / 4095) * VREF ℝ * ADC_MULTIPLIER ℝ⟩ } } := by
    simp [Foguete.updateSensorData, initialFogueteState, sensorDataZero, hgate]
  refine ⟨hupd, ?_⟩
  rw [hupd]
  simp [Foguete.transmitData, initialFogueteState, hgate2, handleCommunicationErrors]

/-- Witness for C10: warm-up sample at 100 ms with ADC reading 4095
(6.6 V) and a transmission at 500 ms, which broadcasts the zero-filled
record carrying only the voltage. -/
theorem warmup_tick_zero_record_witness :
    ¬ u32sub 100 0 < SENSOR_READ_INTERVAL ∧
    Foguete.updateSensorData opsR0 initialFogueteState 100 4095
        ⟨1, 2, 3, 4, 5, 6, 20⟩ 1000 50 ⟨7, 8, 9, 2025, 6, 2, 20, 30, 49⟩ =
      { initialFogueteState with
          lastSensorReadTime := 100
          lastUpdateTime := 100
          sensorData := { sensorDataZero with tensao :=
            ⟨0, ((4095 : Nat) : ℝ) / 4095 * VREF ℝ * ADC_MULTIPLIER ℝ⟩ } } ∧
    (Foguete.transmitData
        (Foguete.updateSensorData opsR0 initialFogueteState 100 4095
          ⟨1, 2, 3, 4, 5, 6, 20⟩ 1000 50 ⟨7, 8, 9, 2025, 6, 2, 20, 30, 49⟩)
        500 true true .ok true true).2 =
      .send { sensorDataZero with tensao :=
          ⟨0, ((4095 : Nat) : ℝ) / 4095 * VREF ℝ * ADC_MULTIPLIER ℝ⟩ } ::
        handleCommunicationErrors .ok true true := by
  have h := warmup_tick_zero_record opsR0 100 500 4095 ⟨1, 2, 3, 4, 5, 6, 20⟩ 1000 50
    ⟨7, 8, 9, 2025, 6, 2, 20, 30, 49⟩ .ok true true (by decide) (by decide)
  exact ⟨by decide, h.1, h.2⟩

end WaterRocket
